import Mathlib

/-!
# Verification of the napkin-calc reactive constraint-solving engine

Shallow embedding of the core of `napkin_calc` (the `CalculationEngine`
together with its `TimeUnitConverter` and `DataSizeConverter` stores and the
conversion-factor tables of `constants.py`), plus the load path of
`ScenarioManager`.  Python `Decimal` values are modelled as exact rationals
(`ℚ`), following the design requirement that all numeric computation is exact
arbitrary-precision arithmetic.  Qt signal emissions are modelled explicitly:
every mutator returns the successor state together with the list of signals
emitted during the call, in emission order.
-/

namespace NapkinCalc

/-- The `TimeUnit` enumeration from `constants.py`. -/
inductive TimeUnit where
| SECOND
| MINUTE
| HOUR
| DAY
| MONTH
| YEAR
deriving DecidableEq, Repr

/-- The `DataSizeUnit` enumeration from `constants.py`. -/
inductive DataSizeUnit where
| BYTE
| KILOBYTE
| MEGABYTE
| GIGABYTE
| TERABYTE
| PETABYTE
| EXABYTE
deriving DecidableEq, Repr

/-- The `CalculationMode` enumeration from `constants.py` (`EXACT` / `ESTIMATE`). -/
inductive CalculationMode where
| EXACT
| ESTIMATE
deriving DecidableEq, Repr

/-- The `LockedVariable` enumeration exactly as declared in `constants.py`
(lines 53–57): it has members `RATE`, `PAYLOAD` and `VOLUME` only.  Note that
`engine.py` refers to a member `LockedVariable.NONE` that this enum does not
define. -/
inductive LockedVariable where
| RATE
| PAYLOAD
| VOLUME
deriving DecidableEq, Repr

/-- The four-state lock value that `engine.py` is written against: its
docstring and code use `LockedVariable.NONE` as the initial "nothing locked"
state in addition to the three members `constants.py` declares.  The engine
model uses this type for its `locked` field. -/
inductive LockState where
| NONE
| RATE
| PAYLOAD
| VOLUME
deriving DecidableEq, Repr

/-- The `seconds_per_unit` from `constants.py`: seconds in one `unit` for the
given mode.  Exact month/year use the average Gregorian month and year
(30.4375 days, 365.25 days); estimate uses a 30-day month and 365-day year. -/
def seconds_per_unit (unit : TimeUnit) (mode : CalculationMode) : ℚ :=
  match mode, unit with
  | _, TimeUnit.SECOND => 1
  | _, TimeUnit.MINUTE => 60
  | _, TimeUnit.HOUR => 3600
  | _, TimeUnit.DAY => 86400
  | CalculationMode.EXACT, TimeUnit.MONTH => 2629800
  | CalculationMode.EXACT, TimeUnit.YEAR => 31557600
  | CalculationMode.ESTIMATE, TimeUnit.MONTH => 2592000
  | CalculationMode.ESTIMATE, TimeUnit.YEAR => 31536000

/-- The `bytes_per_unit` from `constants.py`: bytes in one `unit` for the given
mode.  Exact uses binary multiples (1024ⁿ), estimate decimal multiples
(1000ⁿ). -/
def bytes_per_unit (unit : DataSizeUnit) (mode : CalculationMode) : ℚ :=
  match mode, unit with
  | _, DataSizeUnit.BYTE => 1
  | CalculationMode.EXACT, DataSizeUnit.KILOBYTE => 1024
  | CalculationMode.EXACT, DataSizeUnit.MEGABYTE => 1048576
  | CalculationMode.EXACT, DataSizeUnit.GIGABYTE => 1073741824
  | CalculationMode.EXACT, DataSizeUnit.TERABYTE => 1099511627776
  | CalculationMode.EXACT, DataSizeUnit.PETABYTE => 1125899906842624
  | CalculationMode.EXACT, DataSizeUnit.EXABYTE => 1152921504606846976
  | CalculationMode.ESTIMATE, DataSizeUnit.KILOBYTE => 1000
  | CalculationMode.ESTIMATE, DataSizeUnit.MEGABYTE => 1000000
  | CalculationMode.ESTIMATE, DataSizeUnit.GIGABYTE => 1000000000
  | CalculationMode.ESTIMATE, DataSizeUnit.TERABYTE => 1000000000000
  | CalculationMode.ESTIMATE, DataSizeUnit.PETABYTE => 1000000000000000
  | CalculationMode.ESTIMATE, DataSizeUnit.EXABYTE => 1000000000000000000

/-- The `TimeUnitConverter` from `time_converter.py`: canonical rate stored as
events per second. -/
structure TimeUnitConverter where
  events_per_second : ℚ
deriving DecidableEq, Repr

/-- The `TimeUnitConverter.set_rate`: normalise `value` expressed in `unit` to
events/second using the exact factor. -/
def TimeUnitConverter.set_rate (_c : TimeUnitConverter) (value : ℚ)
    (unit : TimeUnit) : TimeUnitConverter :=
  { events_per_second := value / seconds_per_unit unit CalculationMode.EXACT }

/-- The `TimeUnitConverter.get_rate`: rate expressed in `unit` for the given
display mode. -/
def TimeUnitConverter.get_rate (c : TimeUnitConverter) (unit : TimeUnit)
    (mode : CalculationMode) : ℚ :=
  c.events_per_second * seconds_per_unit unit mode

/-- The `TimeUnitConverter.reset`: clear the stored rate to zero. -/
def TimeUnitConverter.reset (_c : TimeUnitConverter) : TimeUnitConverter :=
  { events_per_second := 0 }

/-- The Qt signals declared on `CalculationEngine` in `engine.py`. -/
inductive EngineSignal where
| rates_changed
| storage_changed
| mode_changed
| lock_changed
| reset_occurred
deriving DecidableEq, Repr

/-- The state owned by `CalculationEngine` (`engine.py`): the embedded
`TimeUnitConverter`, the display mode, the canonical payload size in bytes,
the lock, and the stored target throughput in bytes/second. -/
structure EngineState where
  time_converter : TimeUnitConverter
  display_mode : CalculationMode
  payload_size_bytes : ℚ
  locked : LockState
  target_volume_bps : ℚ
deriving DecidableEq, Repr

namespace CalculationEngine

/-- The `CalculationEngine.__init__`: all scalars zero, display mode EXACT, lock
NONE. -/
def init : EngineState :=
  { time_converter := { events_per_second := 0 }
    display_mode := CalculationMode.EXACT
    payload_size_bytes := 0
    locked := LockState.NONE
    target_volume_bps := 0 }

/-- The `CalculationEngine.events_per_second_exact` accessor. -/
def events_per_second_exact (e : EngineState) : ℚ :=
  e.time_converter.events_per_second

/-- The `CalculationEngine.set_display_mode`: store the mode and emit
`mode_changed`, but only when it actually differs from the current mode. -/
def set_display_mode (e : EngineState) (mode : CalculationMode) :
    EngineState × List EngineSignal :=
  if mode ≠ e.display_mode then
    ({ e with display_mode := mode }, [EngineSignal.mode_changed])
  else (e, [])

/-- The `CalculationEngine.toggle_display_mode`: flip between EXACT and ESTIMATE
via `set_display_mode`. -/
def toggle_display_mode (e : EngineState) : EngineState × List EngineSignal :=
  let new_mode :=
    if e.display_mode = CalculationMode.ESTIMATE then CalculationMode.EXACT
    else CalculationMode.ESTIMATE
  set_display_mode e new_mode

/-- The `CalculationEngine.set_locked_variable`: explicit user override; emits
`lock_changed` only when the value actually changes. -/
def set_locked_variable (e : EngineState) (var : LockState) :
    EngineState × List EngineSignal :=
  if var ≠ e.locked then
    ({ e with locked := var }, [EngineSignal.lock_changed])
  else (e, [])

/-- The `CalculationEngine._auto_lock`: lock `var` only if nothing is locked
yet. -/
def auto_lock (e : EngineState) (var : LockState) :
    EngineState × List EngineSignal :=
  if e.locked = LockState.NONE then
    ({ e with locked := var }, [EngineSignal.lock_changed])
  else (e, [])

/-- The `CalculationEngine.set_rate`: store the rate (exact normalisation to
events/second), auto-lock RATE on first non-zero input, resolve payload from
the stored target when (volume locked) or (payload still zero), then emit
`rates_changed` and `storage_changed`. -/
def set_rate (e : EngineState) (value : ℚ) (unit : TimeUnit) :
    EngineState × List EngineSignal :=
  let e1 := { e with time_converter := e.time_converter.set_rate value unit }
  let step2 := if value ≠ 0 then auto_lock e1 LockState.RATE else (e1, [])
  let e2 := step2.1
  let should_solve_payload :=
    e2.target_volume_bps ≠ 0 ∧ e2.time_converter.events_per_second ≠ 0 ∧
      (e2.locked = LockState.VOLUME ∨ e2.payload_size_bytes = 0)
  let e3 :=
    if should_solve_payload then
      { e2 with payload_size_bytes :=
          e2.target_volume_bps / e2.time_converter.events_per_second }
    else e2
  (e3, step2.2 ++ [EngineSignal.rates_changed, EngineSignal.storage_changed])

/-- The `CalculationEngine.get_rate`: display-mode conversion of the stored
rate. -/
def get_rate (e : EngineState) (unit : TimeUnit) : ℚ :=
  e.time_converter.get_rate unit e.display_mode

/-- The `CalculationEngine.get_rate_exact`. -/
def get_rate_exact (e : EngineState) (unit : TimeUnit) : ℚ :=
  e.time_converter.get_rate unit CalculationMode.EXACT

/-- The `CalculationEngine.set_payload_size`: store the payload in bytes (exact
factor), auto-lock PAYLOAD on first non-zero input, resolve rate from the
stored target when (volume locked) or (rate still zero), emitting
`rates_changed` only in that case, then emit `storage_changed`. -/
def set_payload_size (e : EngineState) (value : ℚ) (unit : DataSizeUnit) :
    EngineState × List EngineSignal :=
  let e1 := { e with payload_size_bytes :=
      value * bytes_per_unit unit CalculationMode.EXACT }
  let step2 :=
    if e1.payload_size_bytes ≠ 0 then auto_lock e1 LockState.PAYLOAD
    else (e1, [])
  let e2 := step2.1
  let should_solve_rate :=
    e2.target_volume_bps ≠ 0 ∧ e2.payload_size_bytes ≠ 0 ∧
      (e2.locked = LockState.VOLUME ∨
        e2.time_converter.events_per_second = 0)
  if should_solve_rate then
    let new_rate := e2.target_volume_bps / e2.payload_size_bytes
    let e3 := { e2 with time_converter :=
        e2.time_converter.set_rate new_rate TimeUnit.SECOND }
    (e3, step2.2 ++ [EngineSignal.rates_changed, EngineSignal.storage_changed])
  else
    (e2, step2.2 ++ [EngineSignal.storage_changed])

/-- The `CalculationEngine.get_payload_size`: display-mode conversion of the
stored payload, with the defensive zero-divisor guard of the source. -/
def get_payload_size (e : EngineState) (unit : DataSizeUnit) : ℚ :=
  let divisor := bytes_per_unit unit e.display_mode
  if divisor = 0 then 0 else e.payload_size_bytes / divisor

/-- The `CalculationEngine.data_throughput_bytes_per_second`: rate × payload, but
when that product is zero and a non-zero target is stored, the stored target
is returned instead. -/
def data_throughput_bytes_per_second (e : EngineState) : ℚ :=
  let computed := e.time_converter.events_per_second * e.payload_size_bytes
  if computed = 0 ∧ e.target_volume_bps ≠ 0 then e.target_volume_bps
  else computed

/-- The `CalculationEngine.get_data_throughput_bytes`: throughput scaled to the
given time unit under the display mode. -/
def get_data_throughput_bytes (e : EngineState) (time_unit : TimeUnit) : ℚ :=
  data_throughput_bytes_per_second e * seconds_per_unit time_unit e.display_mode

/-- The `CalculationEngine.set_target_throughput`: convert the target to
bytes/second with exact factors, store it, auto-lock VOLUME on non-zero
target, then resolve in priority order RATE-locked / PAYLOAD-locked /
VOLUME-locked / has-rate / has-payload / pending, emitting signals per
branch. -/
def set_target_throughput (e : EngineState) (value : ℚ)
    (size_unit : DataSizeUnit) (time_unit : TimeUnit) :
    EngineState × List EngineSignal :=
  let target_bytes := value * bytes_per_unit size_unit CalculationMode.EXACT
  let target_bps :=
    target_bytes / seconds_per_unit time_unit CalculationMode.EXACT
  let e1 := { e with target_volume_bps := target_bps }
  let step2 :=
    if target_bps ≠ 0 then auto_lock e1 LockState.VOLUME else (e1, [])
  let e2 := step2.1
  let has_rate := e2.time_converter.events_per_second ≠ 0
  let has_payload := e2.payload_size_bytes ≠ 0
  let solved_payload :=
    target_bps / e2.time_converter.events_per_second
  let rate_converter :=
    e2.time_converter.set_rate (target_bps / e2.payload_size_bytes)
      TimeUnit.SECOND
  if e2.locked = LockState.RATE ∧ has_rate then
    ({ e2 with payload_size_bytes := solved_payload },
     step2.2 ++ [EngineSignal.storage_changed])
  else if e2.locked = LockState.PAYLOAD ∧ has_payload then
    ({ e2 with time_converter := rate_converter },
     step2.2 ++ [EngineSignal.rates_changed, EngineSignal.storage_changed])
  else if e2.locked = LockState.VOLUME then
    (e2, step2.2 ++ [EngineSignal.storage_changed])
  else if has_rate then
    ({ e2 with payload_size_bytes := solved_payload },
     step2.2 ++ [EngineSignal.storage_changed])
  else if has_payload then
    ({ e2 with time_converter := rate_converter },
     step2.2 ++ [EngineSignal.rates_changed, EngineSignal.storage_changed])
  else
    (e2, step2.2 ++ [EngineSignal.storage_changed])

/-- The `CalculationEngine.pending_target_bytes_per_second` accessor: the stored
target throughput. -/
def pending_target_bytes_per_second (e : EngineState) : ℚ :=
  e.target_volume_bps

/-- The `CalculationEngine.reset`: clear all scalars to zero, clear the lock to
NONE, and emit `rates_changed`, `storage_changed`, `lock_changed` and
`reset_occurred`. -/
def reset (e : EngineState) : EngineState × List EngineSignal :=
  ({ time_converter := e.time_converter.reset
     display_mode := e.display_mode
     payload_size_bytes := 0
     locked := LockState.NONE
     target_volume_bps := 0 },
   [EngineSignal.rates_changed, EngineSignal.storage_changed,
    EngineSignal.lock_changed, EngineSignal.reset_occurred])

end CalculationEngine

open CalculationEngine

/-- C1: the claim says `LockedVariable` is an enumeration with exactly the
four values NONE, RATE, PAYLOAD and VOLUME.  The enum declared in
`constants.py` has exactly the three members RATE, PAYLOAD and VOLUME — there
is no fourth member NONE — while `CalculationEngine.__init__` initialises its
`locked` field to the `NONE` value of the four-state lock that `engine.py`'s
code and docstring presuppose.  This theorem records both facts: every value
of the declared enum is one of the three members, and the freshly constructed
engine's lock is the NONE state that the declared enum cannot supply. -/
theorem C1_locked_variable_enum_mismatch :
    (∀ v : LockedVariable,
        v = LockedVariable.RATE ∨ v = LockedVariable.PAYLOAD ∨
          v = LockedVariable.VOLUME) ∧
    CalculationEngine.init.locked = LockState.NONE := by
  refine ⟨fun v => ?_, rfl⟩
  cases v
  · exact Or.inl rfl
  · exact Or.inr (Or.inl rfl)
  · exact Or.inr (Or.inr rfl)

/-- C6: from any engine state, `reset` zeroes rate, payload and target, sets
the lock to NONE, and emits each of the four notification kinds exactly once
(and never `mode_changed`). -/
theorem C6_reset_clears_and_notifies (e : EngineState) :
    (reset e).1.time_converter.events_per_second = 0 ∧
    (reset e).1.payload_size_bytes = 0 ∧
    (reset e).1.target_volume_bps = 0 ∧
    (reset e).1.locked = LockState.NONE ∧
    (reset e).2.count EngineSignal.rates_changed = 1 ∧
    (reset e).2.count EngineSignal.storage_changed = 1 ∧
    (reset e).2.count EngineSignal.lock_changed = 1 ∧
    (reset e).2.count EngineSignal.reset_occurred = 1 := by
  refine ⟨rfl, rfl, rfl, rfl, ?_, ?_, ?_, ?_⟩ <;> rfl

/-- C8: `set_display_mode` and `toggle_display_mode` change only the
`display_mode` field — the rate store, the payload and the stored target (and
the lock) are untouched — and `mode_changed` is emitted exactly when the new
mode differs from the current one (for `toggle_display_mode` the new mode
always differs, so it always emits it once). -/
theorem C8_display_mode_frame (e : EngineState) (mode : CalculationMode) :
    ((set_display_mode e mode).1.time_converter = e.time_converter ∧
     (set_display_mode e mode).1.payload_size_bytes = e.payload_size_bytes ∧
     (set_display_mode e mode).1.target_volume_bps = e.target_volume_bps ∧
     (set_display_mode e mode).1.locked = e.locked ∧
     (set_display_mode e mode).2 =
       (if mode ≠ e.display_mode then [EngineSignal.mode_changed] else [])) ∧
    ((toggle_display_mode e).1.time_converter = e.time_converter ∧
     (toggle_display_mode e).1.payload_size_bytes = e.payload_size_bytes ∧
     (toggle_display_mode e).1.target_volume_bps = e.target_volume_bps ∧
     (toggle_display_mode e).1.locked = e.locked ∧
     (toggle_display_mode e).2 = [EngineSignal.mode_changed]) := by
  constructor
  · by_cases h : mode = e.display_mode <;>
      simp [set_display_mode, h]
  · cases hm : e.display_mode <;>
      simp [toggle_display_mode, set_display_mode, hm]

/-- Example state: fresh engine after `set_rate(100, SECOND)` (rate 100/sec,
auto-locked RATE). -/
def rate100 : EngineState := (set_rate init 100 TimeUnit.SECOND).1

/-- Example state: fresh engine switched to ESTIMATE display, then
`set_rate(100, SECOND)` and `set_payload_size(500, BYTE)`. -/
def rate100payload500 : EngineState :=
  (set_payload_size
    (set_rate (set_display_mode init CalculationMode.ESTIMATE).1
      100 TimeUnit.SECOND).1
    500 DataSizeUnit.BYTE).1

/-- Example state: fresh engine after `set_payload_size(500, BYTE)` (payload
500 B, auto-locked PAYLOAD). -/
def payload500 : EngineState :=
  (set_payload_size init 500 DataSizeUnit.BYTE).1

/-- Example state: fresh engine after `set_target_throughput(50, KB, SECOND)`
(pending target 51200 B/s, auto-locked VOLUME). -/
def pending50KB : EngineState :=
  (set_target_throughput init 50 DataSizeUnit.KILOBYTE TimeUnit.SECOND).1

/-- C2: `set_target_throughput` resolves according to the lock, in priority
order.  If RATE is locked and the rate is non-zero, the payload becomes
target/rate and the rate store is unchanged; if PAYLOAD is locked and the
payload is non-zero, the rate becomes target/payload and the payload is
unchanged; if VOLUME is locked, only the target is stored and neither side is
solved.  (The target in bytes/second is
`v·bytes_per(size_unit, EXACT) / seconds_per(time_unit, EXACT)`.) -/
theorem C2_set_target_throughput_lock_priority (e : EngineState) (v : ℚ)
    (su : DataSizeUnit) (tu : TimeUnit) :
    (e.locked = LockState.RATE → e.time_converter.events_per_second ≠ 0 →
      (set_target_throughput e v su tu).1.payload_size_bytes =
        v * bytes_per_unit su CalculationMode.EXACT /
          seconds_per_unit tu CalculationMode.EXACT /
            e.time_converter.events_per_second ∧
      (set_target_throughput e v su tu).1.time_converter =
        e.time_converter) ∧
    (e.locked = LockState.PAYLOAD → e.payload_size_bytes ≠ 0 →
      (set_target_throughput e v su tu).1.time_converter.events_per_second =
        v * bytes_per_unit su CalculationMode.EXACT /
          seconds_per_unit tu CalculationMode.EXACT /
            e.payload_size_bytes ∧
      (set_target_throughput e v su tu).1.payload_size_bytes =
        e.payload_size_bytes) ∧
    (e.locked = LockState.VOLUME →
      (set_target_throughput e v su tu).1 =
        { e with target_volume_bps :=
            v * bytes_per_unit su CalculationMode.EXACT /
              seconds_per_unit tu CalculationMode.EXACT }) := by
  refine ⟨fun h hr => ?_, fun h hp => ?_, fun h => ?_⟩
  · simp [set_target_throughput, auto_lock, h, hr,
      TimeUnitConverter.set_rate, seconds_per_unit]
  · simp [set_target_throughput, auto_lock, h, hp,
      TimeUnitConverter.set_rate, seconds_per_unit]
  · simp [set_target_throughput, auto_lock, h,
      TimeUnitConverter.set_rate, seconds_per_unit]

/-- C2 witness: the spec's concrete example.  Rate 100/sec with RATE locked
(the auto-lock of the first edit), then `set_target_throughput(50, KB,
SECOND)` gives `payload_size_bytes = 512` with the rate store unchanged. -/
theorem C2_set_target_throughput_lock_priority_witness :
    (set_target_throughput rate100 50 DataSizeUnit.KILOBYTE
      TimeUnit.SECOND).1.payload_size_bytes = 512 ∧
    (set_target_throughput rate100 50 DataSizeUnit.KILOBYTE
      TimeUnit.SECOND).1.time_converter = rate100.time_converter := by
  have hlock : rate100.locked = LockState.RATE := by
    simp [rate100, set_rate, init, auto_lock, TimeUnitConverter.set_rate,
      seconds_per_unit]
  have hrate : rate100.time_converter.events_per_second ≠ 0 := by
    simp [rate100, set_rate, init, auto_lock, TimeUnitConverter.set_rate,
      seconds_per_unit]
  have h :=
    (C2_set_target_throughput_lock_priority rate100 50 DataSizeUnit.KILOBYTE
      TimeUnit.SECOND).1 hlock hrate
  refine ⟨?_, h.2⟩
  rw [h.1]
  have heps : rate100.time_converter.events_per_second = 100 := by
    simp [rate100, set_rate, init, auto_lock, TimeUnitConverter.set_rate,
      seconds_per_unit]
  rw [heps]
  norm_num [bytes_per_unit, seconds_per_unit]

/-- C3: deferred target resolution.  With no lock and both rate and payload
zero, `set_target_throughput(1, KB, SECOND)` stores a pending target of 1024
bytes/second and leaves rate and payload at 0; and a pending target of
50 KB/SECOND followed by `set_rate(100, SECOND)` resolves the payload to
512 bytes. -/
theorem C3_pending_target_resolution :
    pending_target_bytes_per_second
        (set_target_throughput init 1 DataSizeUnit.KILOBYTE
          TimeUnit.SECOND).1 = 1024 ∧
    (set_target_throughput init 1 DataSizeUnit.KILOBYTE
        TimeUnit.SECOND).1.time_converter.events_per_second = 0 ∧
    (set_target_throughput init 1 DataSizeUnit.KILOBYTE
        TimeUnit.SECOND).1.payload_size_bytes = 0 ∧
    (set_rate pending50KB 100 TimeUnit.SECOND).1.payload_size_bytes = 512 := by
  refine ⟨?_, ?_, ?_, ?_⟩
  · simp [pending_target_bytes_per_second, set_target_throughput, init,
      auto_lock, TimeUnitConverter.set_rate, seconds_per_unit, bytes_per_unit]
  · simp [set_target_throughput, init, auto_lock,
      TimeUnitConverter.set_rate, seconds_per_unit, bytes_per_unit]
  · simp [set_target_throughput, init, auto_lock,
      TimeUnitConverter.set_rate, seconds_per_unit, bytes_per_unit]
  · simp [pending50KB, set_rate, set_target_throughput, init, auto_lock,
      TimeUnitConverter.set_rate, seconds_per_unit, bytes_per_unit]
    norm_num

/-- C5: `data_throughput_bytes_per_second` equals rate × payload whenever
that product is non-zero, and falls back to the stored target when the
product is zero and a non-zero target is stored. -/
theorem C5_throughput_with_target_fallback (e : EngineState) :
    (e.time_converter.events_per_second * e.payload_size_bytes ≠ 0 →
      data_throughput_bytes_per_second e =
        e.time_converter.events_per_second * e.payload_size_bytes) ∧
    (e.time_converter.events_per_second * e.payload_size_bytes = 0 →
      e.target_volume_bps ≠ 0 →
      data_throughput_bytes_per_second e = e.target_volume_bps) := by
  constructor
  · intro h
    simp [data_throughput_bytes_per_second, h]
  · intro h ht
    simp [data_throughput_bytes_per_second, h, ht]

/-- C5 witness: with rate 100/sec and payload 500 B (ESTIMATE display mode)
the throughput is 50000 B/s and `get_data_throughput_bytes(DAY)` is
4320000000 (86400 s/day); and with only a pending target of 50 KB/s stored,
the accessor returns the target 51200 instead of zero. -/
theorem C5_throughput_with_target_fallback_witness :
    data_throughput_bytes_per_second rate100payload500 = 50000 ∧
    get_data_throughput_bytes rate100payload500 TimeUnit.DAY = 4320000000 ∧
    data_throughput_bytes_per_second pending50KB = 51200 := by
  have hprod :
      rate100payload500.time_converter.events_per_second *
        rate100payload500.payload_size_bytes = 50000 := by
    simp [rate100payload500, set_payload_size, set_rate, set_display_mode,
      init, auto_lock, TimeUnitConverter.set_rate, seconds_per_unit,
      bytes_per_unit]
    norm_num
  have h1 :=
    (C5_throughput_with_target_fallback rate100payload500).1
      (by rw [hprod]; norm_num)
  have hzero :
      pending50KB.time_converter.events_per_second *
        pending50KB.payload_size_bytes = 0 := by
    simp [pending50KB, set_target_throughput, init, auto_lock,
      TimeUnitConverter.set_rate, seconds_per_unit, bytes_per_unit]
  have htgt : pending50KB.target_volume_bps = 51200 := by
    simp [pending50KB, set_target_throughput, init, auto_lock,
      TimeUnitConverter.set_rate, seconds_per_unit, bytes_per_unit]
    norm_num
  have h2 :=
    (C5_throughput_with_target_fallback pending50KB).2 hzero
      (by rw [htgt]; norm_num)
  refine ⟨by rw [h1, hprod], ?_, by rw [h2, htgt]⟩
  have hmode : rate100payload500.display_mode = CalculationMode.ESTIMATE := by
    simp [rate100payload500, set_payload_size, set_rate, set_display_mode,
      init, auto_lock, TimeUnitConverter.set_rate, seconds_per_unit,
      bytes_per_unit]
  rw [get_data_throughput_bytes, h1, hprod, hmode]
  norm_num [seconds_per_unit]

/-- Division with an explicit zero-divisor check: `none` models a Python
`DivisionByZero` exception being raised at that division site. -/
def cdiv (a b : ℚ) : Option ℚ :=
  if b = 0 then none else some (a / b)

/-- Every entry of the seconds-per-unit table is non-zero. -/
theorem seconds_per_unit_ne_zero (u : TimeUnit) (m : CalculationMode) :
    seconds_per_unit u m ≠ 0 := by
  cases u <;> cases m <;> norm_num [seconds_per_unit]

/-- The `TimeUnitConverter.set_rate` with its division by the conversion factor
checked. -/
def TimeUnitConverter.set_rateChecked (_c : TimeUnitConverter) (value : ℚ)
    (unit : TimeUnit) : Option TimeUnitConverter := do
  let eps ← cdiv value (seconds_per_unit unit CalculationMode.EXACT)
  pure { events_per_second := eps }

namespace CalculationEngine

/-- The `CalculationEngine.set_rate` with every division site checked: the
normalisation division in the rate store and the `target / rate` resolution
division. -/
def set_rateChecked (e : EngineState) (value : ℚ) (unit : TimeUnit) :
    Option (EngineState × List EngineSignal) := do
  let tc ← e.time_converter.set_rateChecked value unit
  let e1 := { e with time_converter := tc }
  let step2 := if value ≠ 0 then auto_lock e1 LockState.RATE else (e1, [])
  let e2 := step2.1
  let should_solve_payload :=
    e2.target_volume_bps ≠ 0 ∧ e2.time_converter.events_per_second ≠ 0 ∧
      (e2.locked = LockState.VOLUME ∨ e2.payload_size_bytes = 0)
  if should_solve_payload then
    let p ← cdiv e2.target_volume_bps e2.time_converter.events_per_second
    pure ({ e2 with payload_size_bytes := p },
      step2.2 ++ [EngineSignal.rates_changed, EngineSignal.storage_changed])
  else
    pure (e2,
      step2.2 ++ [EngineSignal.rates_changed, EngineSignal.storage_changed])

/-- The checked `set_rate` never hits a zero divisor and agrees with the
unchecked semantics. -/
theorem set_rateChecked_eq (e : EngineState) (v : ℚ) (u : TimeUnit) :
    set_rateChecked e v u = some (set_rate e v u) := by
  have hs := seconds_per_unit_ne_zero u CalculationMode.EXACT
  simp only [set_rateChecked, set_rate, TimeUnitConverter.set_rateChecked,
    TimeUnitConverter.set_rate, cdiv, if_neg hs, Option.bind_eq_bind,
    Option.some_bind]
  split_ifs <;> simp_all

/-- The `CalculationEngine.set_payload_size` with every division site checked:
the `target / payload` resolution division and the rate store's
normalisation division. -/
def set_payload_sizeChecked (e : EngineState) (value : ℚ)
    (unit : DataSizeUnit) : Option (EngineState × List EngineSignal) := do
  let e1 := { e with payload_size_bytes :=
      value * bytes_per_unit unit CalculationMode.EXACT }
  let step2 :=
    if e1.payload_size_bytes ≠ 0 then auto_lock e1 LockState.PAYLOAD
    else (e1, [])
  let e2 := step2.1
  let should_solve_rate :=
    e2.target_volume_bps ≠ 0 ∧ e2.payload_size_bytes ≠ 0 ∧
      (e2.locked = LockState.VOLUME ∨
        e2.time_converter.events_per_second = 0)
  if should_solve_rate then
    let new_rate ← cdiv e2.target_volume_bps e2.payload_size_bytes
    let tc ← e2.time_converter.set_rateChecked new_rate TimeUnit.SECOND
    pure ({ e2 with time_converter := tc },
      step2.2 ++ [EngineSignal.rates_changed, EngineSignal.storage_changed])
  else
    pure (e2, step2.2 ++ [EngineSignal.storage_changed])

/-- The checked `set_payload_size` never hits a zero divisor and agrees with
the unchecked semantics. -/
theorem set_payload_sizeChecked_eq (e : EngineState) (v : ℚ)
    (u : DataSizeUnit) :
    set_payload_sizeChecked e v u = some (set_payload_size e v u) := by
  have hs := seconds_per_unit_ne_zero TimeUnit.SECOND CalculationMode.EXACT
  simp only [set_payload_sizeChecked, set_payload_size,
    TimeUnitConverter.set_rateChecked, TimeUnitConverter.set_rate, cdiv,
    if_neg hs, Option.bind_eq_bind, Option.some_bind]
  split_ifs <;> simp_all

/-- The `CalculationEngine.set_target_throughput` with every division site
checked: the bytes/second normalisation and the `target / rate` and
`target / payload` resolution divisions of each branch. -/
def set_target_throughputChecked (e : EngineState) (value : ℚ)
    (size_unit : DataSizeUnit) (time_unit : TimeUnit) :
    Option (EngineState × List EngineSignal) := do
  let target_bytes := value * bytes_per_unit size_unit CalculationMode.EXACT
  let target_bps ←
    cdiv target_bytes (seconds_per_unit time_unit CalculationMode.EXACT)
  let e1 := { e with target_volume_bps := target_bps }
  let step2 :=
    if target_bps ≠ 0 then auto_lock e1 LockState.VOLUME else (e1, [])
  let e2 := step2.1
  let has_rate := e2.time_converter.events_per_second ≠ 0
  let has_payload := e2.payload_size_bytes ≠ 0
  if e2.locked = LockState.RATE ∧ has_rate then
    let p ← cdiv target_bps e2.time_converter.events_per_second
    pure ({ e2 with payload_size_bytes := p },
      step2.2 ++ [EngineSignal.storage_changed])
  else if e2.locked = LockState.PAYLOAD ∧ has_payload then
    let nr ← cdiv target_bps e2.payload_size_bytes
    let tc ← e2.time_converter.set_rateChecked nr TimeUnit.SECOND
    pure ({ e2 with time_converter := tc },
      step2.2 ++ [EngineSignal.rates_changed, EngineSignal.storage_changed])
  else if e2.locked = LockState.VOLUME then
    pure (e2, step2.2 ++ [EngineSignal.storage_changed])
  else if has_rate then
    let p ← cdiv target_bps e2.time_converter.events_per_second
    pure ({ e2 with payload_size_bytes := p },
      step2.2 ++ [EngineSignal.storage_changed])
  else if has_payload then
    let nr ← cdiv target_bps e2.payload_size_bytes
    let tc ← e2.time_converter.set_rateChecked nr TimeUnit.SECOND
    pure ({ e2 with time_converter := tc },
      step2.2 ++ [EngineSignal.rates_changed, EngineSignal.storage_changed])
  else
    pure (e2, step2.2 ++ [EngineSignal.storage_changed])

/-- The checked `set_target_throughput` never hits a zero divisor and agrees
with the unchecked semantics. -/
theorem set_target_throughputChecked_eq (e : EngineState) (v : ℚ)
    (su : DataSizeUnit) (tu : TimeUnit) :
    set_target_throughputChecked e v su tu =
      some (set_target_throughput e v su tu) := by
  have hs := seconds_per_unit_ne_zero tu CalculationMode.EXACT
  have hs1 := seconds_per_unit_ne_zero TimeUnit.SECOND CalculationMode.EXACT
  simp only [set_target_throughputChecked, set_target_throughput,
    TimeUnitConverter.set_rateChecked, TimeUnitConverter.set_rate, cdiv,
    if_neg hs, if_neg hs1, Option.bind_eq_bind, Option.some_bind]
  split_ifs <;> simp_all

end CalculationEngine

/-- C7: no engine mutator ever divides by zero.  Instrumented variants of
`set_rate`, `set_payload_size` and `set_target_throughput` in which every
division site raises (returns `none`) on a zero divisor always succeed, from
every state and for every input, and agree with the unchecked semantics —
i.e. every division is reached only under a guard that its divisor is
non-zero, and a zero divisor just skips the resolution step. -/
theorem C7_no_division_by_zero :
    (∀ (e : EngineState) (v : ℚ) (u : TimeUnit),
        set_rateChecked e v u = some (set_rate e v u)) ∧
    (∀ (e : EngineState) (v : ℚ) (u : DataSizeUnit),
        set_payload_sizeChecked e v u = some (set_payload_size e v u)) ∧
    (∀ (e : EngineState) (v : ℚ) (su : DataSizeUnit) (tu : TimeUnit),
        set_target_throughputChecked e v su tu =
          some (set_target_throughput e v su tu)) :=
  ⟨set_rateChecked_eq, set_payload_sizeChecked_eq,
    set_target_throughputChecked_eq⟩

/-- The failure kinds `ScenarioManager.load` can raise before touching the
engine: a missing JSON key (Python `KeyError` from `data[...]`) and an
unparseable value (`decimal.InvalidOperation` from `Decimal(...)` or
`ValueError` from `CalculationMode(...)`). -/
inductive LoadError where
| missing_key
| value_error
deriving DecidableEq, Repr

/-- The parsed shape of an `.npkn` JSON document as `ScenarioManager.load`
consumes it.  A field is `none` when its key is absent from the JSON object;
a present decimal field carries `some q` when `Decimal(text)` parses to `q`
and `none` when it would raise; likewise the display-mode field for
`CalculationMode(text)`. -/
structure ScenarioDoc where
  scenario_name : Option String
  events_per_second : Option (Option ℚ)
  payload_size_bytes : Option (Option ℚ)
  display_mode : Option (Option CalculationMode)

/-- The `ScenarioManager.load`, statement by statement: look up and parse
`events_per_second`, then `payload_size_bytes`, then `display_mode` (whose
missing key defaults to `"estimate"`), and only after all three parses
succeed mutate the engine via `set_rate(·, SECOND)`,
`set_payload_size(·, BYTE)` and `set_display_mode`, returning the scenario
name.  An error carries the engine state as it was at the raise point. -/
def ScenarioManager.load (doc : ScenarioDoc) (e : EngineState) :
    Except (LoadError × EngineState) (EngineState × String) :=
  match doc.events_per_second with
  | none => Except.error (LoadError.missing_key, e)
  | some none => Except.error (LoadError.value_error, e)
  | some (some eps) =>
    match doc.payload_size_bytes with
    | none => Except.error (LoadError.missing_key, e)
    | some none => Except.error (LoadError.value_error, e)
    | some (some psb) =>
      match doc.display_mode.getD (some CalculationMode.ESTIMATE) with
      | none => Except.error (LoadError.value_error, e)
      | some mode =>
        let e1 := (CalculationEngine.set_rate e eps TimeUnit.SECOND).1
        let e2 :=
          (CalculationEngine.set_payload_size e1 psb DataSizeUnit.BYTE).1
        let e3 := (CalculationEngine.set_display_mode e2 mode).1
        Except.ok (e3, doc.scenario_name.getD "")

/-- C9: scenario loading is atomic with respect to failure.  Whenever `load`
fails (missing key or unparseable value), the engine state carried at the
raise point is exactly the state before the call; and whenever it succeeds,
the file's rate, payload and display mode have been fully applied, in the
source's order `set_rate` / `set_payload_size` / `set_display_mode`. -/
theorem C9_load_atomic (doc : ScenarioDoc) (e : EngineState) :
    (∀ err s, ScenarioManager.load doc e = Except.error (err, s) → s = e) ∧
    (∀ s name, ScenarioManager.load doc e = Except.ok (s, name) →
      ∃ eps psb mode,
        doc.events_per_second = some (some eps) ∧
        doc.payload_size_bytes = some (some psb) ∧
        doc.display_mode.getD (some CalculationMode.ESTIMATE) = some mode ∧
        s = (CalculationEngine.set_display_mode
              (CalculationEngine.set_payload_size
                (CalculationEngine.set_rate e eps TimeUnit.SECOND).1
                psb DataSizeUnit.BYTE).1 mode).1) := by
  obtain ⟨n, eps, psb, dm⟩ := doc
  constructor
  · intro err s h
    rcases eps with _ | _ | eps <;> rcases psb with _ | _ | psb <;>
      rcases hdm : Option.getD dm (some CalculationMode.ESTIMATE)
        with _ | mode <;>
      simp_all [ScenarioManager.load]
  · intro s name h
    rcases eps with _ | _ | eps <;> rcases psb with _ | _ | psb <;>
      rcases hdm : Option.getD dm (some CalculationMode.ESTIMATE)
        with _ | mode <;>
      simp_all [ScenarioManager.load]

/-- A document whose `payload_size_bytes` key is missing: `load` raises
before any engine mutation. -/
def badScenarioDoc : ScenarioDoc :=
  { scenario_name := some "Chat App"
    events_per_second := some (some 100)
    payload_size_bytes := none
    display_mode := some (some CalculationMode.ESTIMATE) }

/-- C9 witness: loading a document with a missing `payload_size_bytes` key
into a fresh engine fails with a missing-key error and leaves the engine
state exactly as it was. -/
theorem C9_load_atomic_witness :
    ScenarioManager.load badScenarioDoc CalculationEngine.init =
      Except.error (LoadError.missing_key, CalculationEngine.init) ∧
    CalculationEngine.init = CalculationEngine.init := by
  have hload : ScenarioManager.load badScenarioDoc CalculationEngine.init =
      Except.error (LoadError.missing_key, CalculationEngine.init) := rfl
  exact ⟨hload,
    (C9_load_atomic badScenarioDoc CalculationEngine.init).1
      LoadError.missing_key CalculationEngine.init hload⟩

/-- The engine states reachable from a fresh engine by any sequence of the
public mutators, with `set_locked_variable` restricted to the three members
RATE, PAYLOAD and VOLUME that `constants.py` declares (a caller cannot pass a
NONE lock explicitly). -/
inductive Reachable : EngineState → Prop where
| init : Reachable CalculationEngine.init
| set_rate (e : EngineState) (v : ℚ) (u : TimeUnit) :
    Reachable e → Reachable (CalculationEngine.set_rate e v u).1
| set_payload_size (e : EngineState) (v : ℚ) (u : DataSizeUnit) :
    Reachable e → Reachable (CalculationEngine.set_payload_size e v u).1
| set_target_throughput (e : EngineState) (v : ℚ) (su : DataSizeUnit)
    (tu : TimeUnit) :
    Reachable e →
    Reachable (CalculationEngine.set_target_throughput e v su tu).1
| set_locked_variable (e : EngineState) (var : LockState) :
    var ≠ LockState.NONE → Reachable e →
    Reachable (CalculationEngine.set_locked_variable e var).1
| set_display_mode (e : EngineState) (m : CalculationMode) :
    Reachable e → Reachable (CalculationEngine.set_display_mode e m).1
| toggle_display_mode (e : EngineState) :
    Reachable e → Reachable (CalculationEngine.toggle_display_mode e).1
| reset (e : EngineState) : Reachable e →
    Reachable (CalculationEngine.reset e).1

set_option maxHeartbeats 1000000

/-- Inductive step of the C10 invariant for `set_rate`: if the predecessor
satisfies "NONE lock implies all scalars zero", so does its `set_rate`
successor. -/
theorem set_rate_preserves_none_zero (e : EngineState) (v : ℚ) (u : TimeUnit)
    (ih : e.locked = LockState.NONE →
      e.time_converter.events_per_second = 0 ∧ e.payload_size_bytes = 0 ∧
        e.target_volume_bps = 0) :
    (set_rate e v u).1.locked = LockState.NONE →
      (set_rate e v u).1.time_converter.events_per_second = 0 ∧
        (set_rate e v u).1.payload_size_bytes = 0 ∧
        (set_rate e v u).1.target_volume_bps = 0 := by
  intro hn
  by_cases hv : v = 0
  · subst hv
    simp only [set_rate, auto_lock, TimeUnitConverter.set_rate] at hn ⊢
    split_ifs at hn ⊢ <;> simp_all [zero_div]
  · exfalso
    simp only [set_rate, auto_lock, TimeUnitConverter.set_rate] at hn
    split_ifs at hn <;> simp_all

/-- Inductive step of the C10 invariant for `set_payload_size`. -/
theorem set_payload_size_preserves_none_zero (e : EngineState) (v : ℚ)
    (u : DataSizeUnit)
    (ih : e.locked = LockState.NONE →
      e.time_converter.events_per_second = 0 ∧ e.payload_size_bytes = 0 ∧
        e.target_volume_bps = 0) :
    (set_payload_size e v u).1.locked = LockState.NONE →
      (set_payload_size e v u).1.time_converter.events_per_second = 0 ∧
        (set_payload_size e v u).1.payload_size_bytes = 0 ∧
        (set_payload_size e v u).1.target_volume_bps = 0 := by
  intro hn
  by_cases hv : v * bytes_per_unit u CalculationMode.EXACT = 0
  · simp only [set_payload_size, auto_lock, TimeUnitConverter.set_rate]
      at hn ⊢
    split_ifs at hn ⊢ <;> simp_all
  · exfalso
    simp only [set_payload_size, auto_lock, TimeUnitConverter.set_rate] at hn
    split_ifs at hn <;> simp_all

/-- Inductive step of the C10 invariant for `set_target_throughput`. -/
theorem set_target_throughput_preserves_none_zero (e : EngineState) (v : ℚ)
    (su : DataSizeUnit) (tu : TimeUnit)
    (ih : e.locked = LockState.NONE →
      e.time_converter.events_per_second = 0 ∧ e.payload_size_bytes = 0 ∧
        e.target_volume_bps = 0) :
    (set_target_throughput e v su tu).1.locked = LockState.NONE →
      (set_target_throughput e v su tu).1.time_converter.events_per_second
          = 0 ∧
        (set_target_throughput e v su tu).1.payload_size_bytes = 0 ∧
        (set_target_throughput e v su tu).1.target_volume_bps = 0 := by
  intro hn
  by_cases hv : v * bytes_per_unit su CalculationMode.EXACT /
      seconds_per_unit tu CalculationMode.EXACT = 0
  · simp only [set_target_throughput, auto_lock,
      TimeUnitConverter.set_rate] at hn ⊢
    split_ifs at hn ⊢ <;> simp_all
  · exfalso
    simp only [set_target_throughput, auto_lock,
      TimeUnitConverter.set_rate] at hn
    split_ifs at hn <;> simp_all

/-- C10: reachable-state invariant.  In every state reachable from the fresh
engine by the public mutators (with an explicit lock choice restricted to
RATE/PAYLOAD/VOLUME), a NONE lock implies the rate, the payload and the
stored target are all zero — the first call that makes any scalar non-zero
always installs a lock. -/
theorem C10_no_lock_implies_all_zero (e : EngineState) (h : Reachable e) :
    e.locked = LockState.NONE →
      e.time_converter.events_per_second = 0 ∧ e.payload_size_bytes = 0 ∧
        e.target_volume_bps = 0 := by
  induction h with
  | init => exact fun _ => ⟨rfl, rfl, rfl⟩
  | set_rate e v u he ih => exact set_rate_preserves_none_zero e v u ih
  | set_payload_size e v u he ih =>
    exact set_payload_size_preserves_none_zero e v u ih
  | set_target_throughput e v su tu he ih =>
    exact set_target_throughput_preserves_none_zero e v su tu ih
  | set_locked_variable e var hvar he ih =>
    intro hn
    exfalso
    simp only [set_locked_variable] at hn
    split_ifs at hn <;> simp_all
  | set_display_mode e m he ih =>
    intro hn
    simp only [set_display_mode] at hn ⊢
    split_ifs at hn ⊢ <;> simp_all
  | toggle_display_mode e he ih =>
    intro hn
    simp only [toggle_display_mode, set_display_mode] at hn ⊢
    split_ifs at hn ⊢ <;> simp_all
  | reset e he ih => exact fun _ => ⟨rfl, rfl, rfl⟩

/-- C10 witness: the state reached by `set_rate(5, SECOND)` followed by
`reset()` is reachable, has a NONE lock, and indeed has all three scalars
zero. -/
theorem C10_no_lock_implies_all_zero_witness :
    Reachable (reset (set_rate init 5 TimeUnit.SECOND).1).1 ∧
    (reset (set_rate init 5 TimeUnit.SECOND).1).1.locked =
      LockState.NONE ∧
    ((reset (set_rate init 5 TimeUnit.SECOND).1).1.time_converter.events_per_second
        = 0 ∧
      (reset (set_rate init 5 TimeUnit.SECOND).1).1.payload_size_bytes = 0 ∧
      (reset (set_rate init 5 TimeUnit.SECOND).1).1.target_volume_bps = 0) :=
  have hr : Reachable (reset (set_rate init 5 TimeUnit.SECOND).1).1 :=
    Reachable.reset _ (Reachable.set_rate _ 5 TimeUnit.SECOND Reachable.init)
  ⟨hr, rfl, C10_no_lock_implies_all_zero _ hr rfl⟩

end NapkinCalc
